import Mathlib

/-!
Verification of the `llmpool` provider-pool package.

The Go package is shallowly embedded: each Go function becomes a Lean
definition of the same name; the mutable per-provider counters become
explicit state passing over a `List Provider` (the registry sequence,
with a list index playing the role of the Go pointer identity);
timestamps are modelled as `Int` seconds, so `time.Minute` is the
constant 60 and `time.Time.Before` is `<` on `Int`; fallible Go
functions returning `(T, error)` become `Except`; the runtime panic of
a failed type assertion `x.(string)` is modelled by the distinguished
error `ConvErr.panicAssert`, which the dispatcher propagates as a crash
rather than as a recoverable attempt failure.  JSON byte serialization
is abstracted away: wire requests and responses are the structured
values that `json.Marshal` / `json.Unmarshal` would produce, and the
HTTP transport is an oracle `Nat → TransportEvent` giving the outcome
of each network attempt.
-/

namespace LLMPool

/-- Provider type tags, from the Go constants. -/
def ProviderGroq : String := "groq"

def ProviderOpenAI : String := "openai"

def ProviderAnthropic : String := "anthropic"

/-- The registered backend (`Provider` struct).  Timestamps are `Int`
seconds; the mutex is a concurrency artifact with no sequential content. -/
structure Provider where
  name : String
  type : String
  apiKey : String
  baseURL : String
  model : String
  priority : Int
  requestsPerMinute : Int
  requestCount : Int
  lastReset : Int
  totalRequests : Int
  errors : Int
  lastUsed : Int
deriving Repr, DecidableEq

/-- `ImageURLObject` struct. -/
structure ImageURLObject where
  url : String
deriving Repr, DecidableEq

/-- `MessagePart` struct (typed part of structured content). -/
structure MessagePart where
  type : String
  text : String
  imageURL : Option ImageURLObject
deriving Repr, DecidableEq

/-- The dynamic `Content any` field of a `ChatMessage`: per the data
model it holds either a plain string or a list of typed parts. -/
inductive MessageContent where
  | str (s : String)
  | parts (ps : List MessagePart)
deriving Repr, DecidableEq

/-- `ChatMessage` struct. -/
structure ChatMessage where
  role : String
  content : MessageContent
deriving Repr, DecidableEq

/-- `ChatRequest` struct (canonical request). -/
structure ChatRequest where
  messages : List ChatMessage
  model : String
  temperature : Float
  maxTokens : Int
  stream : Bool

/-- The usage triple nested in `ChatResponse`. -/
structure Usage where
  promptTokens : Int
  completionTokens : Int
  totalTokens : Int
deriving Repr, DecidableEq

/-- `ChatResponse` struct (canonical response). -/
structure ChatResponse where
  id : String
  content : String
  model : String
  usage : Usage
  provider : String
deriving Repr, DecidableEq

/-- One minute, in the `Int`-seconds time model. -/
def minuteSec : Int := 60

/-- `CanUseProvider`: the fixed-window rate-limit check.  It mutates the
provider (window reset), so it returns the permit bit together with the
updated provider state. -/
def canUseProvider (now : Int) (p : Provider) : Bool × Provider :=
  let p1 :=
    if minuteSec ≤ now - p.lastReset then
      { p with requestCount := 0, lastReset := now }
    else p
  (decide (p1.requestCount < p1.requestsPerMinute), p1)

/-- The permit bit of `canUseProvider` alone (each provider's check
depends only on that provider's own state). -/
def permits (now : Int) (p : Provider) : Bool :=
  (canUseProvider now p).1

/-- The first loop of `SelectProvider`: scan the sequence in order,
running the rate-limit check (which may write a window reset) on each
provider visited, and stop at the first permitted one.  Returns the
index and state of the selected provider, plus the updated sequence;
providers after the selected one are not visited. -/
def scanProviders (now : Int) : List Provider → Option (Nat × Provider) × List Provider
  | [] => (none, [])
  | p :: rest =>
    let c := canUseProvider now p
    if c.1 then (some (0, c.2), c.2 :: rest)
    else
      let r := scanProviders now rest
      (r.1.map fun sel => (sel.1 + 1, sel.2), c.2 :: r.2)

/-- The second loop of `SelectProvider`: starting from `providers[0]`,
keep the provider with the strictly earliest `LastUsed` seen so far
(`LastUsed.Before`), remembering its index. -/
def coldest : List Provider → Nat × Provider → Nat → Nat × Provider
  | [], best, _ => best
  | p :: rest, best, i =>
    if p.lastUsed < best.2.lastUsed then coldest rest (i, p) (i + 1)
    else coldest rest best (i + 1)

/-- `SelectProvider`: first provider whose rate limiter permits a call;
if none, the least-recently-used provider; `none` when the registry is
empty (Go: error "no providers available"). -/
def selectProvider (now : Int) (ps : List Provider) : Option (Nat × Provider) × List Provider :=
  let r := scanProviders now ps
  match r.1 with
  | some sel => (some sel, r.2)
  | none =>
    match r.2 with
    | [] => (none, [])
    | q :: qs => (some (coldest qs (0, q) 1), q :: qs)

/-- `UpdateProviderStats`: one statistics update for one attempt. -/
def updateProviderStats (now : Int) (success : Bool) (p : Provider) : Provider :=
  let p1 := { p with
    requestCount := p.requestCount + 1
    totalRequests := p.totalRequests + 1
    lastUsed := now }
  if success then p1 else { p1 with errors := p1.errors + 1 }

/-- Outcome of a translation failure in `ConvertToProviderFormat`:
either the returned error for an unknown provider type, or the runtime
panic of the unchecked `msg.Content.(string)` type assertion when the
content is not a plain string. -/
inductive ConvErr where
  | unsupported (t : String)
  | panicAssert
deriving Repr, DecidableEq

/-- The structured value whose `json.Marshal` image is the wire request
body built by `ConvertToProviderFormat`. -/
inductive WireRequest where
  | openai (model : String) (messages : List ChatMessage) (temperature : Float)
      (maxTokens : Int) (stream : Bool)
  | anthropic (model : String) (maxTokens : Int) (temperature : Float)
      (messages : List (String × String)) (system : Option String)

/-- The `for _, msg := range req.Messages` loop of the Anthropic branch
of `ConvertToProviderFormat`: `systemMsg` is overwritten by each
system-role message's content, every other message is appended as a
role/content pair, and in both places the Go code casts the content
with the unchecked assertion `.(string)`, which panics on structured
parts. -/
def anthropicAccum : List ChatMessage → String → List (String × String) →
    Except ConvErr (String × List (String × String))
  | [], sys, acc => .ok (sys, acc)
  | m :: rest, sys, acc =>
    if m.role == "system" then
      match m.content with
      | .str s => anthropicAccum rest s acc
      | .parts _ => .error .panicAssert
    else
      match m.content with
      | .str s => anthropicAccum rest sys (acc ++ [(m.role, s)])
      | .parts _ => .error .panicAssert

/-- `ConvertToProviderFormat`: switch on the provider type; the Groq and
OpenAI cases share the OpenAI-compatible body (messages passed through
unchanged), the Anthropic case separates the system message and flattens
the rest, and any other type is the default error branch. -/
def convertToProviderFormat (prov : Provider) (req : ChatRequest) :
    Except ConvErr WireRequest :=
  if prov.type == ProviderGroq || prov.type == ProviderOpenAI then
    .ok (.openai prov.model req.messages req.temperature req.maxTokens req.stream)
  else if prov.type == ProviderAnthropic then
    match anthropicAccum req.messages "" [] with
    | .error e => .error e
    | .ok (sys, msgs) =>
      .ok (.anthropic prov.model req.maxTokens req.temperature msgs
        (if sys == "" then none else some sys))
  else
    .error (.unsupported prov.type)

/-- The fields of an OpenAI-family wire response that
`ParseProviderResponse` reads: each choice is represented by its
message's content string. -/
structure OpenAIWireResp where
  id : String
  model : String
  choices : List String
  promptTokens : Int
  completionTokens : Int
  totalTokens : Int
deriving Repr, DecidableEq

/-- The fields of an Anthropic wire response that
`ParseProviderResponse` reads: each content block is represented by its
text. -/
structure AnthropicWireResp where
  id : String
  model : String
  content : List String
  inputTokens : Int
  outputTokens : Int
deriving Repr, DecidableEq

/-- The response body handed to `ParseProviderResponse`, abstracted
from bytes to the JSON document it encodes: a document carrying
OpenAI-shaped fields, a document carrying Anthropic-shaped fields, or
text that is not valid JSON (the only case where `json.Unmarshal`
errors; a well-formed document of the wrong shape decodes into the
target struct's zero values). -/
inductive HttpBody where
  | openaiJSON (r : OpenAIWireResp)
  | anthropicJSON (r : AnthropicWireResp)
  | invalid
deriving Repr, DecidableEq

/-- Errors of `ParseProviderResponse`: a `json.Unmarshal` failure or
the default unsupported-type branch. -/
inductive ParseErr where
  | decodeErr
  | unsupported (t : String)
deriving Repr, DecidableEq

/-- `ParseProviderResponse`: switch on the provider type; the OpenAI
family passes the usage triple through and takes the first choice's
message content, the Anthropic branch sums input/output tokens into the
total and takes the first content block's text; with no choices/blocks
the content stays the zero value `""`.  Decoding a well-formed JSON
document of the other family's shape succeeds with zero values for the
missing fields, as `json.Unmarshal` does. -/
def parseProviderResponse (prov : Provider) (body : HttpBody) :
    Except ParseErr ChatResponse :=
  if prov.type == ProviderGroq || prov.type == ProviderOpenAI then
    match body with
    | .openaiJSON r =>
      .ok { id := r.id, model := r.model
            content := match r.choices with | c :: _ => c | [] => ""
            usage := ⟨r.promptTokens, r.completionTokens, r.totalTokens⟩
            provider := prov.name }
    | .anthropicJSON r =>
      .ok { id := r.id, model := r.model, content := ""
            usage := ⟨0, 0, 0⟩, provider := prov.name }
    | .invalid => .error .decodeErr
  else if prov.type == ProviderAnthropic then
    match body with
    | .anthropicJSON r =>
      .ok { id := r.id, model := r.model
            content := match r.content with | c :: _ => c | [] => ""
            usage := ⟨r.inputTokens, r.outputTokens, r.inputTokens + r.outputTokens⟩
            provider := prov.name }
    | .openaiJSON r =>
      .ok { id := r.id, model := r.model, content := ""
            usage := ⟨0, 0, 0⟩, provider := prov.name }
    | .invalid => .error .decodeErr
  else
    .error (.unsupported prov.type)

/-- Outcome of one network attempt, supplied by the environment:
`http.NewRequestWithContext` failing, `client.Do` failing,
`io.ReadAll` failing, or a response with a status code and a body. -/
inductive TransportEvent where
  | newReqFail
  | doFail
  | readFail
  | resp (status : Nat) (body : HttpBody)
deriving Repr, DecidableEq

/-- The per-attempt error remembered in `lastErr` by `Chat`. -/
inductive AttemptErr where
  | unsupported (t : String)
  | newReqErr
  | netErr
  | readErr
  | badStatus (name : String) (status : Nat)
  | parseErr
deriving Repr, DecidableEq

/-- The ways a `Chat` call can end without a response: the aggregate
"all providers failed, last error: ..." error, the selector's
"no providers available" error returned as-is, or a Go panic escaping
the call (from the unchecked content cast). -/
inductive ChatErr where
  | exhausted (lastErr : Option AttemptErr)
  | noProviders
  | panicked
deriving Repr, DecidableEq

/-- One iteration of the retry loop body of `Chat`, given the transport
outcome `ev` for this attempt: `Sum.inl` means the loop returns
(success, the selector's error, or a panic unwinding), `Sum.inr e`
means the iteration ends in `continue` with `lastErr = e`.  Statistics
are written exactly where the Go body calls `UpdateProviderStats`:
after `client.Do`/`io.ReadAll` failures, non-200 statuses, parse
failures, and successes — not after translation or request-construction
failures. -/
def chatAttempt (now : Int) (req : ChatRequest) (ev : TransportEvent)
    (ps : List Provider) :
    (Except ChatErr ChatResponse ⊕ AttemptErr) × List Provider :=
  match selectProvider now ps with
  | (none, ps1) => (Sum.inl (.error .noProviders), ps1)
  | (some (i, prov), ps1) =>
    match convertToProviderFormat prov req with
    | .error .panicAssert => (Sum.inl (.error .panicked), ps1)
    | .error (.unsupported t) => (Sum.inr (.unsupported t), ps1)
    | .ok _wireBody =>
      match ev with
      | .newReqFail => (Sum.inr .newReqErr, ps1)
      | .doFail => (Sum.inr .netErr, ps1.set i (updateProviderStats now false prov))
      | .readFail => (Sum.inr .readErr, ps1.set i (updateProviderStats now false prov))
      | .resp status body =>
        if status ≠ 200 then
          (Sum.inr (.badStatus prov.name status),
            ps1.set i (updateProviderStats now false prov))
        else
          match parseProviderResponse prov body with
          | .error _ =>
            (Sum.inr .parseErr, ps1.set i (updateProviderStats now false prov))
          | .ok resp =>
            (Sum.inl (.ok resp), ps1.set i (updateProviderStats now true prov))

/-- The `for retry := 0; retry < maxRetries; retry++` loop of `Chat`:
`fuel` is the number of remaining iterations, `k` the global attempt
index consumed by the transport oracle, and `lastErr` the last
remembered per-attempt error. -/
def chatLoop (tr : Nat → TransportEvent) (now : Int) (req : ChatRequest) :
    Nat → Nat → List Provider → Option AttemptErr →
    Except ChatErr ChatResponse × List Provider
  | 0, _, ps, lastErr => (.error (.exhausted lastErr), ps)
  | fuel + 1, k, ps, _lastErr =>
    match chatAttempt now req (tr k) ps with
    | (Sum.inl res, ps1) => (res, ps1)
    | (Sum.inr e, ps1) => chatLoop tr now req fuel (k + 1) ps1 (some e)

/-- `Chat`: `maxRetries` is a snapshot of the registry length taken at
call start; the loop starts with no remembered error. -/
def chat (tr : Nat → TransportEvent) (now : Int) (req : ChatRequest)
    (ps : List Provider) : Except ChatErr ChatResponse × List Provider :=
  chatLoop tr now req ps.length 0 ps none

/-- The `less` comparator passed to `sort.Slice` by `AddProvider`:
ascending priority, and at equal priority the left element is "less"
exactly when its type is the Groq type. -/
def providerLess (a b : Provider) : Bool :=
  if a.priority == b.priority then a.type == ProviderGroq
  else decide (a.priority < b.priority)

/-- The copy loop of `GetProviders`: each provider is copied by value
and the copy's key replaced by the mask. -/
def maskLoop : List Provider → List Provider
  | [] => []
  | p :: rest => { p with apiKey := "***" } :: maskLoop rest

/-- `GetProviders`: returns the masked copies together with the pool's
stored sequence after the call (the method performs no write to the
stored providers, so the stored sequence is returned unchanged). -/
def getProviders (ps : List Provider) : List Provider × List Provider :=
  (maskLoop ps, ps)

/-! Observers used to state properties of wire requests. -/

/-- The top-level `system` field of a wire request, when the target
format has one. -/
def wireSystem : WireRequest → Option String
  | .openai _ _ _ _ _ => none
  | .anthropic _ _ _ _ sys => sys

/-- The contents of the system-role messages of a message list (plain
string contents only), in order; the Go loop's `systemMsg` ends up
holding the last of these. -/
def systemContents (msgs : List ChatMessage) : List String :=
  msgs.filterMap fun m =>
    if m.role == "system" then
      match m.content with
      | .str s => some s
      | .parts _ => none
    else none

/-- The non-system messages reduced to role/content pairs (plain string
contents only). -/
def nonSystemPairs (msgs : List ChatMessage) : List (String × String) :=
  msgs.filterMap fun m =>
    if m.role == "system" then none
    else
      match m.content with
      | .str s => some (m.role, s)
      | .parts _ => none

/-! Concrete fixtures used by witnesses and counterexamples. -/

/-- A healthy Groq-type provider with a fresh window at time 100. -/
def groqProv : Provider :=
  { name := "groq-fast", type := "groq", apiKey := "k1"
    baseURL := "https://api.groq.com/openai/v1", model := "m", priority := 1
    requestsPerMinute := 30, requestCount := 0, lastReset := 100
    totalRequests := 0, errors := 0, lastUsed := 50 }

/-- A second Groq-type provider sharing priority 1 with `groqProv`. -/
def groqProvB : Provider :=
  { name := "groq-b", type := "groq", apiKey := "k2", baseURL := "https://b"
    model := "m2", priority := 1, requestsPerMinute := 10, requestCount := 0
    lastReset := 100, totalRequests := 0, errors := 0, lastUsed := 60 }

/-- A provider whose type tag is outside the closed enumeration. -/
def customProv : Provider :=
  { name := "custom-1", type := "custom", apiKey := "k3", baseURL := "https://c"
    model := "m3", priority := 1, requestsPerMinute := 30, requestCount := 0
    lastReset := 100, totalRequests := 0, errors := 0, lastUsed := 40 }

/-- A lower-priority Groq-type provider placed after `customProv`. -/
def groqSecond : Provider :=
  { name := "groq-2", type := "groq", apiKey := "k4", baseURL := "https://d"
    model := "m4", priority := 2, requestsPerMinute := 30, requestCount := 0
    lastReset := 100, totalRequests := 0, errors := 0, lastUsed := 60 }

/-- An Anthropic-type provider. -/
def anthProv : Provider :=
  { name := "anth-1", type := "anthropic", apiKey := "k5", baseURL := "https://e"
    model := "claude", priority := 3, requestsPerMinute := 30, requestCount := 0
    lastReset := 100, totalRequests := 0, errors := 0, lastUsed := 70 }

/-- A provider whose window is stale at time 100 (reset due). -/
def staleProv : Provider :=
  { name := "stale", type := "groq", apiKey := "k6", baseURL := "https://f"
    model := "m6", priority := 1, requestsPerMinute := 5, requestCount := 5
    lastReset := 0, totalRequests := 7, errors := 2, lastUsed := 30 }

/-- A provider with a quota of zero and a fresh window at time 100. -/
def zeroQuotaProv : Provider :=
  { name := "zero", type := "groq", apiKey := "k7", baseURL := "https://g"
    model := "m7", priority := 1, requestsPerMinute := 0, requestCount := 0
    lastReset := 100, totalRequests := 0, errors := 0, lastUsed := 20 }

/-- A plain one-message canonical request. -/
def simpleReq : ChatRequest :=
  { messages := [⟨"user", .str "hi"⟩], model := "", temperature := 0.0
    maxTokens := 100, stream := false }

/-- A request with two system-role messages followed by a user message. -/
def twoSysReq : ChatRequest :=
  { messages := [⟨"system", .str "A"⟩, ⟨"system", .str "B"⟩, ⟨"user", .str "hi"⟩]
    model := "", temperature := 0.0, maxTokens := 10, stream := false }

/-- A request whose user message carries structured multimodal parts. -/
def partsReq : ChatRequest :=
  { messages := [⟨"user", .parts [⟨"image_url", "", some ⟨"https://img"⟩⟩]⟩]
    model := "", temperature := 0.0, maxTokens := 10, stream := false }

/-- A provider at its quota with a fresh window at time 100 (blocked),
last used at 80. -/
def exhA : Provider :=
  { name := "exh-a", type := "groq", apiKey := "ka", baseURL := "https://ha"
    model := "ma", priority := 1, requestsPerMinute := 1, requestCount := 1
    lastReset := 100, totalRequests := 4, errors := 1, lastUsed := 80 }

/-- A second blocked provider, worse priority but colder (last used at
20). -/
def exhB : Provider :=
  { name := "exh-b", type := "openai", apiKey := "kb", baseURL := "https://hb"
    model := "mb", priority := 2, requestsPerMinute := 1, requestCount := 1
    lastReset := 100, totalRequests := 5, errors := 0, lastUsed := 20 }

/-! Theorems. -/

/-- C2: the rate-limit check resets count to zero and window start to
now exactly when the elapsed time is at least one minute, leaves the
state untouched otherwise, permits iff the current (post-reset) window
count is strictly below the quota, and with a quota of zero (and a
non-negative count) never permits. -/
theorem canUseProvider_fixed_window (now : Int) (p : Provider) :
    (minuteSec ≤ now - p.lastReset →
      (canUseProvider now p).2.requestCount = 0 ∧
      (canUseProvider now p).2.lastReset = now) ∧
    (now - p.lastReset < minuteSec → (canUseProvider now p).2 = p) ∧
    ((canUseProvider now p).1 = true ↔
      (canUseProvider now p).2.requestCount < p.requestsPerMinute) ∧
    (p.requestsPerMinute = 0 → 0 ≤ p.requestCount →
      (canUseProvider now p).1 = false) := by
  refine ⟨?_, ?_, ?_, ?_⟩
  · intro h
    simp [canUseProvider, if_pos h]
  · intro h
    simp [canUseProvider, if_neg (not_le.mpr h)]
  · by_cases h : minuteSec ≤ now - p.lastReset <;>
      simp [canUseProvider, h]
  · intro hq hc
    by_cases h : minuteSec ≤ now - p.lastReset
    · simp [canUseProvider, h, hq]
    · simp [canUseProvider, h, hq]
      omega

/-- C2 witness: a stale window is reset at time 100, and a zero-quota
provider with a fresh window is denied. -/
theorem canUseProvider_fixed_window_witness :
    ((canUseProvider 100 staleProv).2.requestCount = 0 ∧
      (canUseProvider 100 staleProv).2.lastReset = 100) ∧
    (canUseProvider 100 zeroQuotaProv).1 = false :=
  ⟨(canUseProvider_fixed_window 100 staleProv).1 (by decide),
   (canUseProvider_fixed_window 100 zeroQuotaProv).2.2.2 (by decide) (by decide)⟩

/-- C9 (amended): a `Chat` call started with an empty registry takes a
zero-length snapshot `maxRetries = 0`, never runs the loop body (so the
selector's "no providers available" error is never produced), and
returns the aggregate error with no underlying last error — Go:
"all providers failed, last error: <nil>". -/
theorem chat_empty_registry (tr : Nat → TransportEvent) (now : Int)
    (req : ChatRequest) :
    chat tr now req [] = (.error (.exhausted none), []) := rfl

/-- C9 witness: the amended empty-registry behavior at a concrete
transport oracle, time and request. -/
theorem chat_empty_registry_witness :
    chat (fun _ => .resp 200 .invalid) 55 twoSysReq [] =
      (.error (.exhausted none), []) :=
  chat_empty_registry (fun _ => .resp 200 .invalid) 55 twoSysReq

/-- C9 counterexample: with an empty registry the error surfaced by
`Chat` is the exhaustion error with no underlying error, not the
selector's `noProviders` ("no providers available") error the claim
names. -/
theorem chat_empty_registry_cex :
    chat (fun _ => .doFail) 100 simpleReq [] = (.error (.exhausted none), []) ∧
    (chat (fun _ => .doFail) 100 simpleReq []).1 ≠ .error .noProviders :=
  ⟨rfl, by simp [chat, chatLoop]⟩

/-- C7 counterexample: two distinct equal-priority Groq-type providers
each compare strictly below the other under the `sort.Slice` comparator
of `AddProvider`, so the comparator is not asymmetric: it is not a
consistent deterministic tie-break (and violates the strict-weak-order
contract `sort.Slice` requires, leaving the relative order of such
providers unspecified). -/
theorem providerLess_not_asymmetric :
    providerLess groqProv groqProvB = true ∧
    providerLess groqProvB groqProv = true ∧
    groqProv ≠ groqProvB := by decide

/-- C7 (amended): the comparator orders strictly by ascending priority,
and at equal priority calls the left element "less" exactly when its
type is the Groq tag — so a Groq-type destination compares below any
equal-priority destination, but for two equal-priority destinations of
the same type the relation is not asymmetric (both directions hold for
two Groq-type ones, neither for two non-Groq ones) and hence does not
determine their order. -/
theorem providerLess_spec (a b : Provider) :
    (a.priority = b.priority → providerLess a b = (a.type == ProviderGroq)) ∧
    (a.priority ≠ b.priority →
      providerLess a b = decide (a.priority < b.priority)) ∧
    (providerLess a b = true → a.priority ≤ b.priority) := by
  refine ⟨?_, ?_, ?_⟩
  · intro h
    simp [providerLess, h]
  · intro h
    simp [providerLess, beq_iff_eq, h]
  · intro h3
    unfold providerLess at h3
    by_cases h : a.priority = b.priority
    · omega
    · simp [beq_iff_eq, h] at h3
      omega

/-- C7 witness: concrete uses of the comparator characterization at
distinct and at equal priorities. -/
theorem providerLess_spec_witness :
    providerLess customProv groqSecond = decide ((1 : Int) < 2) ∧
    providerLess groqProv groqProvB = (("groq" : String) == "groq") ∧
    customProv.priority ≤ groqSecond.priority :=
  ⟨(providerLess_spec customProv groqSecond).2.1 (by decide),
   (providerLess_spec groqProv groqProvB).1 (by decide),
   (providerLess_spec customProv groqSecond).2.2 (by decide)⟩

/-- Length is preserved by the `GetProviders` copy loop. -/
theorem maskLoop_length (ps : List Provider) :
    (maskLoop ps).length = ps.length := by
  induction ps with
  | nil => rfl
  | cons p rest ih => simp [maskLoop, ih]

/-- Pointwise description of the `GetProviders` copy loop. -/
theorem maskLoop_getElem? (ps : List Provider) (i : Nat) :
    (maskLoop ps)[i]? = ps[i]?.map fun p => { p with apiKey := "***" } := by
  induction ps generalizing i with
  | nil => simp [maskLoop]
  | cons p rest ih =>
    cases i with
    | zero => simp [maskLoop]
    | succ j => simp [maskLoop, ih]

/-- C10: `GetProviders` leaves the stored sequence unchanged and
returns one copy per registered provider, identical to the original
except that the copy's APIKey field is the mask `"***"` — the
credential never appears in the returned list. -/
theorem getProviders_masks_credentials (ps : List Provider) :
    (getProviders ps).2 = ps ∧
    (getProviders ps).1.length = ps.length ∧
    (∀ i : Nat, (getProviders ps).1[i]? =
      ps[i]?.map fun p => { p with apiKey := "***" }) ∧
    ∀ q ∈ (getProviders ps).1, q.apiKey = "***" := by
  refine ⟨rfl, maskLoop_length ps, fun i => maskLoop_getElem? ps i, ?_⟩
  intro q hq
  unfold getProviders at hq
  induction ps with
  | nil => simp [maskLoop] at hq
  | cons p rest ih =>
    simp only [maskLoop, List.mem_cons] at hq
    rcases hq with h | h
    · subst h; rfl
    · exact ih h

/-- C10 witness: the masking property applied to a concrete pool. -/
theorem getProviders_masks_credentials_witness :
    (getProviders [groqProv]).1[0]? =
      [groqProv][0]?.map (fun p => { p with apiKey := "***" }) ∧
    groqProv.apiKey = "k1" :=
  ⟨(getProviders_masks_credentials [groqProv]).2.2.1 0, by decide⟩

/-- Prepending to a list shifts `getLast?.getD`: the default is only
used when the rest of the list is empty. -/
theorem getLastD_cons (l : List String) (s d : String) :
    ((s :: l).getLast?).getD d = (l.getLast?).getD s := by
  induction l generalizing s d with
  | nil => rfl
  | cons a l ih => rw [List.getLast?_cons_cons, ih a d, ih a s]

/-- When every message carries plain string content, the Anthropic
translation loop succeeds, its `systemMsg` accumulator ends up holding
the content of the last system-role message (or its initial value when
there is none), and the flattened messages are the non-system ones in
order. -/
theorem anthropicAccum_all_str (msgs : List ChatMessage)
    (h : ∀ m ∈ msgs, ∃ s, m.content = .str s) :
    ∀ sys acc, anthropicAccum msgs sys acc =
      .ok (((systemContents msgs).getLast?).getD sys,
        acc ++ nonSystemPairs msgs) := by
  induction msgs with
  | nil =>
    intro sys acc
    simp [anthropicAccum, systemContents, nonSystemPairs]
  | cons m rest ih =>
    intro sys acc
    obtain ⟨s, hs⟩ := h m (by simp)
    have hrest : ∀ m2 ∈ rest, ∃ s2, m2.content = .str s2 :=
      fun m2 hm2 => h m2 (by simp [hm2])
    by_cases hrole : m.role = "system"
    · rw [show anthropicAccum (m :: rest) sys acc = anthropicAccum rest s acc by
        simp [anthropicAccum, hrole, hs]]
      rw [ih hrest s acc]
      simp [systemContents, nonSystemPairs, List.filterMap_cons, hrole, hs,
        getLastD_cons]
    · rw [show anthropicAccum (m :: rest) sys acc =
          anthropicAccum rest sys (acc ++ [(m.role, s)]) by
        simp [anthropicAccum, hrole, hs]]
      rw [ih hrest sys (acc ++ [(m.role, s)])]
      simp [systemContents, nonSystemPairs, List.filterMap_cons, hrole, hs]

/-- If any message carries structured parts content, the Anthropic
translation loop reaches an unchecked `.(string)` assertion on a
non-string value and panics, whatever the accumulator state. -/
theorem anthropicAccum_parts (msgs : List ChatMessage) :
    (∃ m ∈ msgs, ∃ q, m.content = .parts q) →
    ∀ sys acc, anthropicAccum msgs sys acc = .error .panicAssert := by
  induction msgs with
  | nil => intro h; simp at h
  | cons m rest ih =>
    intro h sys acc
    obtain ⟨m2, hm2, q, hq⟩ := h
    rcases List.mem_cons.mp hm2 with heq | hmem
    · subst heq
      by_cases hrole : m2.role = "system" <;> simp [anthropicAccum, hrole, hq]
    · cases hc : m.content with
      | parts q2 =>
        by_cases hrole : m.role = "system" <;> simp [anthropicAccum, hrole, hc]
      | str s =>
        by_cases hrole : m.role = "system"
        · rw [show anthropicAccum (m :: rest) sys acc =
              anthropicAccum rest s acc by simp [anthropicAccum, hrole, hc]]
          exact ih ⟨m2, hmem, q, hq⟩ s acc
        · rw [show anthropicAccum (m :: rest) sys acc =
              anthropicAccum rest sys (acc ++ [(m.role, s)]) by
            simp [anthropicAccum, hrole, hc]]
          exact ih ⟨m2, hmem, q, hq⟩ sys (acc ++ [(m.role, s)])

/-- C4 counterexample: with two system-role messages (contents "A" then
"B") the wire request's top-level system field holds "B", the content
of the last system message — not "A", the first, as the claim states. -/
theorem anthropic_first_system_not_honored :
    (convertToProviderFormat anthProv twoSysReq).map wireSystem =
      .ok (some "B") ∧
    twoSysReq.messages.head? = some ⟨"system", .str "A"⟩ ∧
    ("B" : String) ≠ "A" :=
  ⟨rfl, rfl, by decide⟩

/-- Full description of the Anthropic branch of
`ConvertToProviderFormat` on all-plain-text requests: the top-level
system field holds the last system-role message's content (omitted when
empty or absent) and the remaining messages become role/content
pairs. -/
theorem convertAnthropic_all_str (prov : Provider) (req : ChatRequest)
    (htype : prov.type = ProviderAnthropic)
    (hstr : ∀ m ∈ req.messages, ∃ s, m.content = .str s) :
    convertToProviderFormat prov req =
      .ok (.anthropic prov.model req.maxTokens req.temperature
        (nonSystemPairs req.messages)
        (if ((systemContents req.messages).getLast?).getD "" == "" then none
         else some (((systemContents req.messages).getLast?).getD ""))) := by
  unfold convertToProviderFormat
  rw [anthropicAccum_all_str req.messages hstr "" []]
  simp [htype, ProviderAnthropic, ProviderGroq, ProviderOpenAI]

/-- C4 (amended): for every request routed to the Anthropic family
whose messages all carry plain string content, translation moves the
content of the LAST system-role message (overwrite semantics, no
merging) into the dedicated top-level field — omitted when that content
is empty or when there is no system message — and reduces the remaining
messages to role/content pairs in order. -/
theorem anthropic_system_extraction (prov : Provider) (req : ChatRequest)
    (htype : prov.type = ProviderAnthropic)
    (hstr : ∀ m ∈ req.messages, ∃ s, m.content = .str s) :
    convertToProviderFormat prov req =
      .ok (.anthropic prov.model req.maxTokens req.temperature
        (nonSystemPairs req.messages)
        (if ((systemContents req.messages).getLast?).getD "" == "" then none
         else some (((systemContents req.messages).getLast?).getD ""))) :=
  convertAnthropic_all_str prov req htype hstr

/-- C4 witness: the amended extraction evaluated on the two-system
request — the honored system content is "B". -/
theorem anthropic_system_extraction_witness :
    convertToProviderFormat anthProv twoSysReq =
      .ok (.anthropic "claude" 10 0.0 [("user", "hi")] (some "B")) := by
  have h := anthropic_system_extraction anthProv twoSysReq rfl ?_
  · rw [h]; rfl
  · intro m hm
    simp only [twoSysReq, List.mem_cons, List.not_mem_nil, or_false] at hm
    rcases hm with rfl | rfl | rfl <;> exact ⟨_, rfl⟩

/-- C5 counterexample: structured multimodal content routed to the
Anthropic family makes the translation hit the unchecked `.(string)`
cast and panic (`panicAssert` models the Go runtime panic), and the
panic escapes the whole `Chat` call (`panicked`): translation is not
total on this input and no explicit ContractViolation error is
returned. -/
theorem anthropic_multimodal_cex :
    convertToProviderFormat anthProv partsReq = .error .panicAssert ∧
    chat (fun _ => .doFail) 100 partsReq [anthProv] =
      (.error .panicked, [anthProv]) :=
  ⟨rfl, rfl⟩

/-- C5 (amended): for every request containing structured multimodal
content routed to the Anthropic family, the unchecked content cast
fails: translation ends in the modelled runtime panic rather than a
returned error, and a dispatch attempt that selects such a provider
aborts the whole call with the panic instead of recording a failed
attempt. -/
theorem anthropic_multimodal_panics (prov : Provider) (req : ChatRequest)
    (htype : prov.type = ProviderAnthropic)
    (hparts : ∃ m ∈ req.messages, ∃ q, m.content = .parts q) :
    convertToProviderFormat prov req = .error .panicAssert ∧
    ∀ now ev ps i ps1, selectProvider now ps = (some (i, prov), ps1) →
      chatAttempt now req ev ps = (Sum.inl (.error .panicked), ps1) := by
  have hconv : convertToProviderFormat prov req = .error .panicAssert := by
    unfold convertToProviderFormat
    rw [anthropicAccum_parts req.messages hparts "" []]
    simp [htype, ProviderAnthropic, ProviderGroq, ProviderOpenAI]
  refine ⟨hconv, fun now ev ps i ps1 hsel => ?_⟩
  simp [chatAttempt, hsel, hconv]

/-- C5 witness: the amended panic behavior at the concrete multimodal
request and a concrete one-provider pool. -/
theorem anthropic_multimodal_panics_witness :
    convertToProviderFormat anthProv partsReq = .error .panicAssert ∧
    chatAttempt 100 partsReq .doFail [anthProv] =
      (Sum.inl (.error .panicked), [anthProv]) :=
  ⟨(anthropic_multimodal_panics anthProv partsReq rfl
      ⟨⟨"user", .parts [⟨"image_url", "", some ⟨"https://img"⟩⟩]⟩,
        by simp [partsReq], _, rfl⟩).1,
   (anthropic_multimodal_panics anthProv partsReq rfl
      ⟨⟨"user", .parts [⟨"image_url", "", some ⟨"https://img"⟩⟩]⟩,
        by simp [partsReq], _, rfl⟩).2
     100 .doFail [anthProv] 0 [anthProv] (by decide)⟩

/-- C3 counterexample: a pool with one provider of an unknown type: the
single dispatch attempt fails at BUILD (translation) and the loop moves
on without any statistics update — the returned pool state is
unchanged, so this attempt did not update the destination's statistics
exactly once as the claim states. -/
theorem chat_build_failure_no_stats_cex :
    chat (fun _ => .doFail) 100 simpleReq [customProv] =
      (.error (.exhausted (some (.unsupported "custom"))), [customProv]) ∧
    customProv.totalRequests = 0 ∧ customProv.errors = 0 ∧
    customProv.requestCount = 0 :=
  ⟨rfl, rfl, rfl, rfl⟩

/-- C3 (amended): within one dispatch iteration, attempts that fail at
TRANSPORT (`client.Do` or body read), at a non-200 status, or at PARSE,
and successful attempts, update the selected destination's statistics
exactly once (window count, total count and last-used time always;
error count exactly on failure); attempts that fail at BUILD
(translation) or at HTTP request construction update no statistics at
all, so in an all-fail scenario only the attempts that reached the
transport increment error counters. -/
theorem chat_stats_once_per_sent_attempt
    (now : Int) (req : ChatRequest) (ev : TransportEvent)
    (ps ps1 : List Provider) (i : Nat) (prov : Provider)
    (hsel : selectProvider now ps = (some (i, prov), ps1)) :
    ((updateProviderStats now true prov).requestCount = prov.requestCount + 1 ∧
      (updateProviderStats now true prov).totalRequests = prov.totalRequests + 1 ∧
      (updateProviderStats now true prov).lastUsed = now ∧
      (updateProviderStats now true prov).errors = prov.errors ∧
      (updateProviderStats now false prov).requestCount = prov.requestCount + 1 ∧
      (updateProviderStats now false prov).totalRequests = prov.totalRequests + 1 ∧
      (updateProviderStats now false prov).lastUsed = now ∧
      (updateProviderStats now false prov).errors = prov.errors + 1) ∧
    (∀ t, convertToProviderFormat prov req = .error (.unsupported t) →
      (chatAttempt now req ev ps).2 = ps1) ∧
    (∀ w, convertToProviderFormat prov req = .ok w → ev = .newReqFail →
      (chatAttempt now req ev ps).2 = ps1) ∧
    (∀ w, convertToProviderFormat prov req = .ok w →
      (ev = .doFail ∨ ev = .readFail ∨
        (∃ s b, ev = .resp s b ∧ s ≠ 200) ∨
        (∃ b e, ev = .resp 200 b ∧ parseProviderResponse prov b = .error e)) →
      (chatAttempt now req ev ps).2 =
        ps1.set i (updateProviderStats now false prov)) ∧
    (∀ w b resp2, convertToProviderFormat prov req = .ok w → ev = .resp 200 b →
      parseProviderResponse prov b = .ok resp2 →
      (chatAttempt now req ev ps).2 =
        ps1.set i (updateProviderStats now true prov)) := by
  refine ⟨by simp [updateProviderStats], ?_, ?_, ?_, ?_⟩
  · intro t hconv
    simp [chatAttempt, hsel, hconv]
  · intro w hconv hev
    subst hev
    simp [chatAttempt, hsel, hconv]
  · intro w hconv hfail
    rcases hfail with rfl | rfl | ⟨s, b, rfl, hs⟩ | ⟨b, e, rfl, hparse⟩
    · simp [chatAttempt, hsel, hconv]
    · simp [chatAttempt, hsel, hconv]
    · simp [chatAttempt, hsel, hconv, hs]
    · simp [chatAttempt, hsel, hconv, hparse]
  · intro w b resp2 hconv hev hparse
    subst hev
    simp [chatAttempt, hsel, hconv, hparse]

/-- C3 witness: concrete single attempts — a transport failure updates
the provider once with an error increment, and a BUILD failure leaves
the pool untouched. -/
theorem chat_stats_once_per_sent_attempt_witness :
    (chatAttempt 100 simpleReq .doFail [groqProv]).2 =
      [groqProv].set 0 (updateProviderStats 100 false groqProv) ∧
    (chatAttempt 100 simpleReq .doFail [customProv]).2 = [customProv] :=
  ⟨(chat_stats_once_per_sent_attempt 100 simpleReq .doFail
      [groqProv] [groqProv] 0 groqProv (by decide)).2.2.2.1
      (.openai "m" simpleReq.messages 0.0 100 false) rfl (Or.inl rfl),
   (chat_stats_once_per_sent_attempt 100 simpleReq .doFail
      [customProv] [customProv] 0 customProv (by decide)).2.1
      "custom" rfl⟩

/-- C6 counterexample: a pool of two providers where the unknown-typed
one has the better position: both loop iterations re-select the same
unknown-typed destination (its state is never changed by the BUILD
failure), the second, healthy provider is never attempted (its
statistics stay zero in the final state), and the unsupported-protocol
error is not surfaced immediately: it comes back only wrapped in the
terminal exhaustion error after the attempt budget is spent. -/
theorem unsupported_type_retried_cex :
    chatLoop (fun _ => .doFail) 100 simpleReq 1 0 [customProv, groqSecond] none =
      (.error (.exhausted (some (.unsupported "custom"))),
        [customProv, groqSecond]) ∧
    chat (fun _ => .doFail) 100 simpleReq [customProv, groqSecond] =
      (.error (.exhausted (some (.unsupported "custom"))),
        [customProv, groqSecond]) ∧
    groqSecond.totalRequests = 0 :=
  ⟨rfl, rfl, rfl⟩

/-- C6 (amended): translation of a destination whose protocol variant
is outside the closed enumeration fails with the unsupported-protocol
error and never silently defaults to a supported family; but inside
`Chat` this error is absorbed into the retry loop as the remembered
last error, the iteration changes no destination state (so the same
destination can be — and with unchanged selection inputs is —
re-selected on the next attempt), and the caller only sees the error
wrapped in the terminal exhaustion error. -/
theorem unsupported_type_not_defaulted (prov : Provider) (req : ChatRequest)
    (hg : prov.type ≠ ProviderGroq) (ho : prov.type ≠ ProviderOpenAI)
    (ha : prov.type ≠ ProviderAnthropic) :
    convertToProviderFormat prov req = .error (.unsupported prov.type) ∧
    ∀ now ev ps i ps1, selectProvider now ps = (some (i, prov), ps1) →
      chatAttempt now req ev ps = (Sum.inr (.unsupported prov.type), ps1) := by
  have hconv : convertToProviderFormat prov req =
      .error (.unsupported prov.type) := by
    unfold convertToProviderFormat
    simp [beq_iff_eq, hg, ho, ha]
  exact ⟨hconv, fun now ev ps i ps1 hsel => by simp [chatAttempt, hsel, hconv]⟩

/-- C8: round-trip per protocol family.  For the chat-completions
family (Groq/OpenAI types), translation of any canonical request
succeeds, and parsing a wire response whose first choice carries `txt`
and whose usage triple is `(p, c, p + c)` yields canonical content
`txt` and usage `(p, c, p + c)` — the total is the sum of the injected
components, passed through unchanged.  For the structured-turn family
(Anthropic type), translation succeeds for any all-plain-text request,
and parsing a wire response whose first content block carries `txt`
with separate input/output token counts yields canonical content `txt`
and usage `(input, output, input + output)` — the translator sums the
components. -/
theorem round_trip_usage (prov : Provider) (req : ChatRequest)
    (rid mdl txt : String) (more : List String) (pTok cTok inTok outTok : Int) :
    ((prov.type = ProviderGroq ∨ prov.type = ProviderOpenAI) →
      (∃ w, convertToProviderFormat prov req = .ok w) ∧
      parseProviderResponse prov
          (.openaiJSON ⟨rid, mdl, txt :: more, pTok, cTok, pTok + cTok⟩) =
        .ok ⟨rid, txt, mdl, ⟨pTok, cTok, pTok + cTok⟩, prov.name⟩) ∧
    (prov.type = ProviderAnthropic →
      ((∀ m ∈ req.messages, ∃ s, m.content = .str s) →
        ∃ w, convertToProviderFormat prov req = .ok w) ∧
      parseProviderResponse prov
          (.anthropicJSON ⟨rid, mdl, txt :: more, inTok, outTok⟩) =
        .ok ⟨rid, txt, mdl, ⟨inTok, outTok, inTok + outTok⟩, prov.name⟩) := by
  constructor
  · rintro (h | h)
    · exact ⟨⟨.openai prov.model req.messages req.temperature req.maxTokens
          req.stream, by simp [convertToProviderFormat, h, ProviderGroq]⟩,
        by simp [parseProviderResponse, h, ProviderGroq]⟩
    · exact ⟨⟨.openai prov.model req.messages req.temperature req.maxTokens
          req.stream, by simp [convertToProviderFormat, h, ProviderOpenAI]⟩,
        by simp [parseProviderResponse, h, ProviderOpenAI]⟩
  · intro h
    refine ⟨fun hstr => ⟨_, convertAnthropic_all_str prov req h hstr⟩, ?_⟩
    simp [parseProviderResponse, h, ProviderAnthropic, ProviderGroq,
      ProviderOpenAI]

/-- C8 witness: the round trip at concrete wire responses for both
families, and translation success at a concrete request. -/
theorem round_trip_usage_witness :
    parseProviderResponse groqProv
        (.openaiJSON ⟨"i1", "m1", ["hello"], 3, 4, 3 + 4⟩) =
      .ok ⟨"i1", "hello", "m1", ⟨3, 4, 7⟩, "groq-fast"⟩ ∧
    parseProviderResponse anthProv
        (.anthropicJSON ⟨"i2", "m2", ["hey"], 5, 6⟩) =
      .ok ⟨"i2", "hey", "m2", ⟨5, 6, 11⟩, "anth-1"⟩ ∧
    ∃ w, convertToProviderFormat groqProv simpleReq = .ok w :=
  ⟨((round_trip_usage groqProv simpleReq "i1" "m1" "hello" [] 3 4 0 0).1
      (Or.inl rfl)).2,
   ((round_trip_usage anthProv simpleReq "i2" "m2" "hey" [] 0 0 5 6).2 rfl).2,
   ((round_trip_usage groqProv simpleReq "i1" "m1" "hello" [] 3 4 0 0).1
      (Or.inl rfl)).1⟩

/-- The rate-limit check never changes the last-used timestamp. -/
theorem canUseProvider_lastUsed (now : Int) (p : Provider) :
    (canUseProvider now p).2.lastUsed = p.lastUsed := by
  unfold canUseProvider
  by_cases h : minuteSec ≤ now - p.lastReset <;> simp [h]

/-- The selection scan finds exactly the first provider (in sequence
order) whose rate limiter permits a call, returning its post-check
state. -/
theorem scanProviders_found (now : Int) :
    ∀ (ps : List Provider) (i : Nat) (hi : i < ps.length),
      permits now (ps.get ⟨i, hi⟩) = true →
      (∀ k (hk : k < i), permits now (ps.get ⟨k, Nat.lt_trans hk hi⟩) = false) →
      (scanProviders now ps).1 =
        some (i, (canUseProvider now (ps.get ⟨i, hi⟩)).2) := by
  intro ps
  induction ps with
  | nil => intro i hi; exact absurd hi (Nat.not_lt_zero i)
  | cons p rest ih =>
    intro i hi hperm hbefore
    cases i with
    | zero =>
      have hp : (canUseProvider now p).1 = true := hperm
      simp [scanProviders, hp]
    | succ j =>
      have hp : (canUseProvider now p).1 = false := hbefore 0 (Nat.succ_pos j)
      have hj : j < rest.length := Nat.lt_of_succ_lt_succ hi
      have hrec := ih j hj hperm fun k hk => hbefore (k + 1) (Nat.succ_lt_succ hk)
      simp [scanProviders, hp, hrec]

/-- When no provider's rate limiter permits a call, the scan finds
nothing. -/
theorem scanProviders_none (now : Int) :
    ∀ ps : List Provider, (∀ x ∈ ps, permits now x = false) →
      (scanProviders now ps).1 = none := by
  intro ps
  induction ps with
  | nil => intro _; rfl
  | cons p rest ih =>
    intro h
    have hp : (canUseProvider now p).1 = false := h p (by simp)
    have hr := ih fun x hx => h x (by simp [hx])
    simp [scanProviders, hp, hr]

/-- The scan only writes window resets: the sequence of last-used
timestamps is unchanged. -/
theorem scanProviders_lastUsed (now : Int) :
    ∀ ps : List Provider,
      ((scanProviders now ps).2).map Provider.lastUsed =
        ps.map Provider.lastUsed := by
  intro ps
  induction ps with
  | nil => rfl
  | cons p rest ih =>
    by_cases hp : (canUseProvider now p).1 <;>
      simp [scanProviders, hp, canUseProvider_lastUsed, ih]

/-- The scan preserves the length of the registry sequence. -/
theorem scanProviders_length (now : Int) (ps : List Provider) :
    ((scanProviders now ps).2).length = ps.length := by
  have h := congrArg List.length (scanProviders_lastUsed now ps)
  simpa using h

/-- The fallback loop of `SelectProvider` returns a provider whose
last-used timestamp is minimal among the initial candidate and all
remaining providers. -/
theorem coldest_min :
    ∀ (qs : List Provider) (b : Provider) (j i : Nat),
      ((coldest qs (j, b) i).2).lastUsed ≤ b.lastUsed ∧
      ∀ x ∈ qs, ((coldest qs (j, b) i).2).lastUsed ≤ x.lastUsed := by
  intro qs
  induction qs with
  | nil => intro b j i; exact ⟨le_refl _, by simp⟩
  | cons p rest ih =>
    intro b j i
    by_cases hp : p.lastUsed < b.lastUsed
    · rw [show coldest (p :: rest) (j, b) i = coldest rest (i, p) (i + 1) by
        simp [coldest, hp]]
      refine ⟨le_trans (ih p i (i + 1)).1 (le_of_lt hp), ?_⟩
      intro x hx
      rcases List.mem_cons.mp hx with rfl | hx2
      · exact (ih x i (i + 1)).1
      · exact (ih p i (i + 1)).2 x hx2
    · rw [show coldest (p :: rest) (j, b) i = coldest rest (j, b) (i + 1) by
        simp [coldest, hp]]
      refine ⟨(ih b j (i + 1)).1, ?_⟩
      intro x hx
      rcases List.mem_cons.mp hx with rfl | hx2
      · exact le_trans (ih b j (i + 1)).1 (not_lt.mp hp)
      · exact (ih b j (i + 1)).2 x hx2

/-- The fallback loop tracks the index of the provider it returns: if
the current best is at index `j` of the full sequence `L` and the
not-yet-visited providers start at offset `i`, the returned index
points at the returned provider in `L`. -/
theorem coldest_index :
    ∀ (qs L : List Provider) (b : Provider) (j i : Nat),
      L[j]? = some b →
      (∀ k, k < qs.length → L[i + k]? = qs[k]?) →
      L[(coldest qs (j, b) i).1]? = some (coldest qs (j, b) i).2 := by
  intro qs
  induction qs with
  | nil => intro L b j i hj _; exact hj
  | cons p rest ih =>
    intro L b j i hj hqs
    have hp0 : L[i]? = some p := by
      have h0 := hqs 0 (Nat.succ_pos rest.length)
      simpa using h0
    have hshift : ∀ k, k < rest.length → L[i + 1 + k]? = rest[k]? := by
      intro k hk
      have h1 := hqs (k + 1) (Nat.succ_lt_succ hk)
      have h2 : i + (k + 1) = i + 1 + k := by omega
      rw [h2] at h1
      simpa using h1
    by_cases hp : p.lastUsed < b.lastUsed
    · rw [show coldest (p :: rest) (j, b) i = coldest rest (i, p) (i + 1) by
        simp [coldest, hp]]
      exact ih L p i (i + 1) hp0 hshift
    · rw [show coldest (p :: rest) (j, b) i = coldest rest (j, b) (i + 1) by
        simp [coldest, hp]]
      exact ih L b j (i + 1) hj hshift

/-- C1: for every pool state, `SelectProvider` (i) returns the first
provider, in sequence order, whose rate limiter currently permits a
call (with its post-check state); (ii) when no provider permits a
call, whatever it returns is a provider whose last-used timestamp is
the globally earliest in the registry, regardless of priority;
(iii) returns a provider whenever the registry is non-empty; and
(iv) returns the "no providers available" failure exactly on the empty
registry. -/
theorem selectProvider_spec (now : Int) (ps : List Provider) :
    (∀ i (hi : i < ps.length),
      permits now (ps.get ⟨i, hi⟩) = true →
      (∀ k (hk : k < i), permits now (ps.get ⟨k, Nat.lt_trans hk hi⟩) = false) →
      (selectProvider now ps).1 =
        some (i, (canUseProvider now (ps.get ⟨i, hi⟩)).2)) ∧
    ((∀ x ∈ ps, permits now x = false) → ∀ j prov,
      (selectProvider now ps).1 = some (j, prov) →
      ps[j]?.map Provider.lastUsed = some prov.lastUsed ∧
      ∀ k (hk : k < ps.length),
        prov.lastUsed ≤ (ps.get ⟨k, hk⟩).lastUsed) ∧
    (ps ≠ [] → (selectProvider now ps).1.isSome = true) ∧
    (selectProvider now ([] : List Provider)).1 = none := by
  refine ⟨?_, ?_, ?_, rfl⟩
  · intro i hi hperm hbefore
    have hscan := scanProviders_found now ps i hi hperm hbefore
    simp [selectProvider, hscan]
  · intro hall j prov hsel
    have hnone := scanProviders_none now ps hall
    have hlen := scanProviders_length now ps
    have hmap := scanProviders_lastUsed now ps
    cases hr2 : (scanProviders now ps).2 with
    | nil =>
      have : (selectProvider now ps).1 = none := by
        simp [selectProvider, hnone, hr2]
      rw [this] at hsel
      exact absurd hsel (by simp)
    | cons q qs =>
      rw [hr2] at hlen hmap
      have hsel2 : (selectProvider now ps).1 = some (coldest qs (0, q) 1) := by
        simp [selectProvider, hnone, hr2]
      rw [hsel2] at hsel
      have hjp : coldest qs (0, q) 1 = (j, prov) := by
        exact Option.some.inj hsel
      have hidx := coldest_index qs (q :: qs) q 0 1 (by simp)
        (fun k hk => by rw [Nat.add_comm]; simp)
      have hmin := coldest_min qs q 0 1
      rw [hjp] at hidx hmin
      have hidx2 : (q :: qs)[j]? = some prov := hidx
      constructor
      · calc ps[j]?.map Provider.lastUsed
            = (ps.map Provider.lastUsed)[j]? :=
              (List.getElem?_map Provider.lastUsed ps j).symm
          _ = ((q :: qs).map Provider.lastUsed)[j]? := by rw [hmap]
          _ = (q :: qs)[j]?.map Provider.lastUsed :=
              List.getElem?_map Provider.lastUsed (q :: qs) j
          _ = some prov.lastUsed := by rw [hidx2]; rfl
      · intro k hk
        have hk2 : k < (q :: qs).length := by rw [hlen]; exact hk
        have hx : ((q :: qs).get ⟨k, hk2⟩).lastUsed =
            (ps.get ⟨k, hk⟩).lastUsed := by
          have hcong := congrArg (fun l => l[k]?) hmap
          simp only [List.getElem?_map] at hcong
          rw [List.getElem?_eq_getElem hk2, List.getElem?_eq_getElem hk] at hcong
          simp only [Option.map_some'] at hcong
          exact Option.some.inj hcong
        rw [← hx]
        rcases List.mem_cons.mp (List.get_mem (q :: qs) k hk2) with hq | hqs2
        · rw [hq]
          exact hmin.1
        · exact hmin.2 _ hqs2
  · intro hne
    cases hscan1 : (scanProviders now ps).1 with
    | some sel => simp [selectProvider, hscan1]
    | none =>
      cases hr2 : (scanProviders now ps).2 with
      | nil =>
        have hlen := scanProviders_length now ps
        rw [hr2] at hlen
        exact absurd (List.length_eq_zero.mp hlen.symm) hne
      | cons q qs => simp [selectProvider, hscan1, hr2]

/-- C1 witness: on a one-provider pool with quota available the first
permitted provider (index 0) is selected; on a fully rate-limited
two-provider pool the fallback returns the provider at index 1, whose
last-used timestamp (20) is the globally earliest. -/
theorem selectProvider_spec_witness :
    (selectProvider 100 [groqProv]).1 =
      some (0, (canUseProvider 100 groqProv).2) ∧
    [exhA, exhB][1]?.map Provider.lastUsed = some exhB.lastUsed :=
  ⟨(selectProvider_spec 100 [groqProv]).1 0 (by decide) (by decide)
      (fun k hk => absurd hk (Nat.not_lt_zero k)),
   ((selectProvider_spec 100 [exhA, exhB]).2.1
      (by intro x hx; fin_cases hx <;> decide) 1 exhB (by decide)).1⟩

/-- C6 witness: the amended behavior at the concrete unknown-typed
provider and the concrete two-provider pool. -/
theorem unsupported_type_not_defaulted_witness :
    convertToProviderFormat customProv simpleReq =
      .error (.unsupported "custom") ∧
    chatAttempt 100 simpleReq .doFail [customProv, groqSecond] =
      (Sum.inr (.unsupported "custom"), [customProv, groqSecond]) :=
  ⟨(unsupported_type_not_defaulted customProv simpleReq
      (by decide) (by decide) (by decide)).1,
   (unsupported_type_not_defaulted customProv simpleReq
      (by decide) (by decide) (by decide)).2
     100 .doFail [customProv, groqSecond] 0 [customProv, groqSecond]
     (by decide)⟩

end LLMPool
